import Mathlib

/-!
Verification of the tweet-dashboard script (src/app.py): the enriched table's
derived columns, the three dropdown filters, the four aggregate projections of
the callback and its network-graph branch, modelled as a shallow embedding.
Python machine values are modelled with Nat / Int / ℚ; Python values whose
runtime type matters for equality (the day-of-week column versus the
day-of-week dropdown string) are modelled by a sum type PyVal, since Python
equality between an int and a str is False.  Fallible steps return Except.
-/

/-- A Python value as stored in a DataFrame column, for columns compared
against dropdown selections: an int or a str.  Python `==` between an int and
a str is False, which structural equality on this sum type reproduces. -/
inductive PyVal where
  | pint : Int → PyVal
  | pstr : String → PyVal
deriving DecidableEq, Repr

/-- A naive (timezone-stripped) pandas timestamp, as produced at line 16 of
app.py by to_datetime(...).dt.tz_convert(None).  Sub-day resolution is kept,
because the `date` column retains the time of day. -/
structure Timestamp where
  year : Nat
  month : Nat
  day : Nat
  hour : Nat
  minute : Nat
deriving DecidableEq, Repr

/-- Linearisation key giving the chronological order of timestamps
(injective on calendar-valid timestamps: month ≤ 12, day ≤ 31, hour < 24,
minute < 60). -/
def tsKey (t : Timestamp) : Nat :=
  (((t.year * 13 + t.month) * 32 + t.day) * 24 + t.hour) * 60 + t.minute

/-- One row of the enriched DataFrame built at lines 14-40 of app.py: the raw
columns (date, tweet, country, source, target) plus the derived columns added
once at load time.  `day_of_week` is kept as a PyVal because the dropdown it
is compared against supplies day-name strings while pandas stores the integer
dayofweek index. -/
structure Row where
  date : Timestamp
  tweet : String
  country : String
  source : String
  target : String
  month : Nat
  year : Nat
  day_of_week : PyVal
  day_name : String
  is_weekend : String
  hour : Nat
  tweet_length : Nat
  hashtag_count : Nat
  mention_count : Nat
  word_count : Nat
  polarity : ℚ
  subjectivity : ℚ
deriving DecidableEq, Repr

/-- The enriched DataFrame: a list of rows. -/
abbrev Table := List Row

/- ### A kernel-reducible insertion sort (pandas groupby / value_counts sort
their keys; core mergeSort does not reduce in the kernel, so sorting is
modelled by insertion sort). -/

/-- Insert `a` into `l` before the first element `b` with `le a b`. -/
def insertLe (le : α → α → Bool) (a : α) : List α → List α
  | [] => [a]
  | b :: l => if le a b then a :: b :: l else b :: insertLe le a l

/-- Insertion sort by the boolean relation `le`. -/
def sortLe (le : α → α → Bool) : List α → List α
  | [] => []
  | a :: l => insertLe le a (sortLe le l)

theorem mem_insertLe (le : α → α → Bool) (a x : α) (l : List α) :
    x ∈ insertLe le a l ↔ x = a ∨ x ∈ l := by
  induction l with
  | nil => simp [insertLe]
  | cons b l ih =>
      by_cases h : le a b
      · simp [insertLe, h]
      · simp [insertLe, h, ih]
        tauto

theorem mem_sortLe (le : α → α → Bool) (x : α) (l : List α) :
    x ∈ sortLe le l ↔ x ∈ l := by
  induction l with
  | nil => simp [sortLe]
  | cons a l ih => simp [sortLe, mem_insertLe, ih]

theorem sorted_insertLe (le : α → α → Bool)
    (total : ∀ a b, le a b || le b a)
    (trans : ∀ a b c, le a b → le b c → le a c)
    (a : α) (l : List α)
    (h : List.Pairwise (fun x y => le x y) l) :
    List.Pairwise (fun x y => le x y) (insertLe le a l) := by
  induction l with
  | nil => simp [insertLe]
  | cons b l ih =>
      rcases h with - | ⟨hb, hl⟩
      by_cases hab : le a b
      · simp only [insertLe, hab, if_true]
        refine List.Pairwise.cons ?_ (List.Pairwise.cons hb hl)
        intro y hy
        rcases List.mem_cons.1 hy with rfl | hy
        · exact hab
        · exact trans a b y hab (hb y hy)
      · have hba : le b a := by
          have := total a b
          simp [hab] at this
          exact this
        simp only [insertLe, hab, if_false]
        refine List.Pairwise.cons ?_ (ih hl)
        intro y hy
        rcases (mem_insertLe le a y l).1 hy with rfl | hy
        · exact hba
        · exact hb y hy

theorem sorted_sortLe (le : α → α → Bool)
    (total : ∀ a b, le a b || le b a)
    (trans : ∀ a b c, le a b → le b c → le a c)
    (l : List α) :
    List.Pairwise (fun x y => le x y) (sortLe le l) := by
  induction l with
  | nil => simp [sortLe]
  | cons a l ih => exact sorted_insertLe le total trans a (sortLe le l) ih

/- ### Text statistics (app.py lines 27-36) -/

/-- A regex word character, as in the patterns at lines 30 and 33: a letter,
a digit or an underscore. -/
def isWordChar (c : Char) : Bool := c.isAlphanum || c == '_'

theorem dropWhile_length_le (p : α → Bool) (l : List α) :
    (l.dropWhile p).length ≤ l.length := by
  induction l with
  | nil => simp
  | cons a l ih =>
      by_cases h : p a
      · simp [List.dropWhile_cons, h]
        omega
      · simp [List.dropWhile_cons, h]

/-- Fuel-driven scanner for the non-overlapping matches of the pattern
`t`·word-char-run: at a position starting with `t` followed by a word
character it counts one match and resumes after the word-char run, otherwise
it advances one character.  The fuel (instantiated with the input length,
which bounds the number of scan steps) makes the recursion structural. -/
def countFindallGo (t : Char) : Nat → List Char → Nat
  | 0, _ => 0
  | _ + 1, [] => 0
  | _ + 1, _ :: [] => 0
  | fuel + 1, c :: d :: ds =>
      if c == t && isWordChar d then countFindallGo t fuel (ds.dropWhile isWordChar) + 1
      else countFindallGo t fuel (d :: ds)

/-- Number of non-overlapping matches of `t`·word-char-run in a character
list, the semantics of len(re.findall(...)) with t = '#' (line 30) or
'@' (line 33) of app.py. -/
def countFindall (t : Char) (l : List Char) : Nat := countFindallGo t l.length l

/-- Fuel-driven scanner counting maximal runs of non-whitespace characters. -/
def countWordsGo : Nat → List Char → Nat
  | 0, _ => 0
  | _ + 1, [] => 0
  | fuel + 1, c :: cs =>
      if c.isWhitespace then countWordsGo fuel cs
      else countWordsGo fuel (cs.dropWhile (fun d => !d.isWhitespace)) + 1

/-- Number of whitespace-delimited tokens, the semantics of
len(x.split()) at line 36 of app.py. -/
def countWords (l : List Char) : Nat := countWordsGo l.length l

/-- Line 27: tweet_length column. -/
def tweet_length (s : String) : Nat := s.length

/-- Line 30: hashtag_count column. -/
def hashtag_count (s : String) : Nat := countFindall '#' s.data

/-- Line 33: mention_count column. -/
def mention_count (s : String) : Nat := countFindall '@' s.data

/-- Line 36: word_count column. -/
def word_count (s : String) : Nat := countWords s.data

/-- Spec-side reformulation of the match count: the number of positions at
which `t` is immediately followed by a word character.  Because `t` itself is
not a word character, these positions are exactly the match starts. -/
def countStarts (t : Char) : List Char → Nat
  | a :: b :: rest => (if a == t && isWordChar b then 1 else 0) + countStarts t (b :: rest)
  | _ => 0

theorem countStarts_dropWhile (t : Char) (h : isWordChar t = false) :
    ∀ l : List Char, countStarts t l = countStarts t (l.dropWhile isWordChar) := by
  intro l
  induction l with
  | nil => rfl
  | cons a l ih =>
      by_cases ha : isWordChar a
      · have hat : (a == t) = false := by
          by_cases hq : a = t
          · exact absurd (hq ▸ ha) (by simp [h])
          · simp [hq]
        rw [List.dropWhile_cons_of_pos ha, ← ih]
        cases l with
        | nil => rfl
        | cons b bs => simp [countStarts, hat]
      · rw [List.dropWhile_cons_of_neg ha]

theorem countFindallGo_eq_countStarts (t : Char) (h : isWordChar t = false) :
    ∀ n, ∀ l : List Char, l.length ≤ n → countFindallGo t n l = countStarts t l := by
  intro n
  induction n with
  | zero =>
      intro l hl
      have hnil : l = [] := List.length_eq_zero.1 (Nat.le_zero.1 hl)
      subst hnil
      rfl
  | succ n ih =>
      intro l hl
      match l with
      | [] => rfl
      | [c] => rfl
      | c :: d :: ds =>
          by_cases hc : (c == t && isWordChar d) = true
          · obtain ⟨hct, hd⟩ : (c == t) = true ∧ isWordChar d = true := by simpa using hc
            have h1 : (ds.dropWhile isWordChar).length ≤ n := by
              have := dropWhile_length_le isWordChar ds
              simp at hl
              omega
            have h2 : countStarts t (d :: ds) = countStarts t (ds.dropWhile isWordChar) := by
              rw [countStarts_dropWhile t h (d :: ds), List.dropWhile_cons_of_pos hd]
            simp only [countFindallGo, countStarts, hc, if_true]
            rw [ih _ h1, h2]
            omega
          · have h1 : (d :: ds).length ≤ n := by simp at hl ⊢; omega
            simp only [countFindallGo, countStarts, hc, if_false]
            rw [ih _ h1]
            have hc' : ¬(c == t && isWordChar d) = true := hc
            simp [hc']

theorem countFindall_eq_countStarts (t : Char) (h : isWordChar t = false) :
    ∀ l : List Char, countFindall t l = countStarts t l := by
  intro l
  exact countFindallGo_eq_countStarts t h l.length l le_rfl

/- ### Dropdown option domains (app.py lines 47-49) -/

/-- The values of the month dropdown (the keys of the `months` dict at
line 47). -/
def month_values : List Nat := [1, 2, 3, 4, 5, 6, 7, 8, 9, 10, 11, 12]

/-- Line 48: the values of the day-of-week dropdown — day NAMES, although the
`day_of_week` column stores the integer dayofweek index. -/
def days_of_week : List String :=
  ["Monday", "Tuesday", "Wednesday", "Thursday", "Friday", "Saturday", "Sunday"]

/-- Line 49: the values of the weekday/weekend dropdown. -/
def weekday_values : List String := ["Weekday", "Weekend"]

/- ### The filtering step of update_graphs (app.py lines 110-120).
A dropdown with no selection passes None; Python `if sel:` is truthiness,
so None, 0 and "" all skip the corresponding filter. -/

/-- Lines 112-113: the month filter. -/
def stepMonth (sel : Option Nat) (t : Table) : Table :=
  match sel with
  | none => t
  | some m => if m == 0 then t else t.filter (fun r => r.month == m)

/-- Lines 114-115: the day-of-week filter.  The selection is a day-name
string, compared by Python `==` against the integer `day_of_week` column. -/
def stepDayOfWeek (sel : Option String) (t : Table) : Table :=
  match sel with
  | none => t
  | some d => if d == "" then t else t.filter (fun r => r.day_of_week == PyVal.pstr d)

/-- Lines 116-120: the weekday/weekend filter; any truthy selection other
than "Weekday" falls into the else branch and filters on "Weekend". -/
def stepWeekend (sel : Option String) (t : Table) : Table :=
  match sel with
  | none => t
  | some w =>
      if w == "" then t
      else if w == "Weekday" then t.filter (fun r => r.is_weekend == "Weekday")
      else t.filter (fun r => r.is_weekend == "Weekend")

/-- Lines 110-120: the whole filtering step, starting from a copy of the
global DataFrame. -/
def update_filter (df : Table) (selM : Option Nat) (selD : Option String)
    (selW : Option String) : Table :=
  stepWeekend selW (stepDayOfWeek selD (stepMonth selM df))

/-- Modelled from the spec: "each criterion, if present, narrows by exact
equality on the corresponding derived field; absent criteria (a null/unset
sentinel) impose no constraint; criteria compose by logical AND."  Equality
is Python equality, under which the day-name string never equals the integer
day-of-week column value. -/
def matchesCriteria (selM : Option Nat) (selD : Option String)
    (selW : Option String) (r : Row) : Bool :=
  (match selM with | none => true | some m => r.month == m) &&
  ((match selD with | none => true | some d => r.day_of_week == PyVal.pstr d) &&
   (match selW with | none => true | some w => r.is_weekend == w))

/-- The month selection, when present, is one of the dropdown's values. -/
def validMonthSel (s : Option Nat) : Bool := s.all (fun m => month_values.contains m)

/-- The day-of-week selection, when present, is one of the dropdown's values. -/
def validDaySel (s : Option String) : Bool := s.all (fun d => days_of_week.contains d)

/-- The weekday/weekend selection, when present, is one of the dropdown's
values. -/
def validWeekendSel (s : Option String) : Bool := s.all (fun w => weekday_values.contains w)

theorem filter_filter_filter (p q s : Row → Bool) (t : Table) :
    List.filter s (List.filter q (List.filter p t)) =
      t.filter (fun r => p r && (q r && s r)) := by
  rw [List.filter_filter, List.filter_filter]
  apply List.filter_congr
  intro a _
  cases hp : p a <;> cases hq : q a <;> cases hs : s a <;> simp [hp, hq, hs]

theorem stepMonth_eq_filter (sel : Option Nat) (t : Table)
    (h : validMonthSel sel = true) :
    stepMonth sel t =
      t.filter (fun r => match sel with | none => true | some m => r.month == m) := by
  match sel with
  | none => simp [stepMonth]
  | some m =>
      have hm : m ∈ month_values := by simpa [validMonthSel] using h
      have hm0 : (m == 0) = false := by
        simp [month_values] at hm
        simp
        omega
      simp [stepMonth, hm0]

theorem stepDayOfWeek_eq_filter (sel : Option String) (t : Table)
    (h : validDaySel sel = true) :
    stepDayOfWeek sel t =
      t.filter (fun r =>
        match sel with | none => true | some d => r.day_of_week == PyVal.pstr d) := by
  match sel with
  | none => simp [stepDayOfWeek]
  | some d =>
      have hd : d ∈ days_of_week := by simpa [validDaySel] using h
      have hd0 : (d == "") = false := by
        simp [days_of_week] at hd
        rcases hd with rfl | rfl | rfl | rfl | rfl | rfl | rfl <;> decide
      simp [stepDayOfWeek, hd0]

theorem stepWeekend_eq_filter (sel : Option String) (t : Table)
    (h : validWeekendSel sel = true) :
    stepWeekend sel t =
      t.filter (fun r =>
        match sel with | none => true | some w => r.is_weekend == w) := by
  match sel with
  | none => simp [stepWeekend]
  | some w =>
      have hw : w ∈ weekday_values := by simpa [validWeekendSel] using h
      simp [weekday_values] at hw
      rcases hw with rfl | rfl <;> simp [stepWeekend]

/- ### Aggregates recomputed per callback (app.py lines 122-128) -/

/-- Chronological order on timestamps, as a boolean relation for sorting. -/
def tsLeB (a b : Timestamp) : Bool := tsKey a ≤ tsKey b

/-- Lexicographic order on strings by code point, as a boolean relation
(pandas groupby sorts its string keys ascending). -/
def strLeList : List Char → List Char → Bool
  | [], _ => true
  | _ :: _, [] => false
  | a :: as, b :: bs =>
      if a.toNat < b.toNat then true
      else if a.toNat = b.toNat then strLeList as bs
      else false

/-- Boolean string order wrapper. -/
def strLeB (a b : String) : Bool := strLeList a.data b.data

/-- Arithmetic mean of a list of rationals (0 on the empty list; pandas mean
is only taken over nonempty groups below). -/
def mean (l : List ℚ) : ℚ := l.sum / l.length

/-- Line 123: filtered_df.groupby('date').size() — one entry per distinct
value of the `date` column (the full timestamp), with its row count, ordered
ascending by the groupby key. -/
def daily_tweet_count (rows : Table) : List (Timestamp × Nat) :=
  (sortLe tsLeB ((rows.map (fun r => r.date)).dedup)).map
    (fun d => (d, rows.countP (fun r => r.date == d)))

/-- Line 124: filtered_df.groupby('country')['polarity'].mean() — one entry
per distinct country, with the mean polarity of its rows, keys ascending. -/
def country_sentiment (rows : Table) : List (String × ℚ) :=
  (sortLe strLeB ((rows.map (fun r => r.country)).dedup)).map
    (fun c => (c, mean ((rows.filter (fun r => r.country == c)).map (fun r => r.polarity))))

/-- Line 125: the seven numerical columns of the correlation heatmap, in
order: tweet_length, hashtag_count, mention_count, word_count, polarity,
subjectivity, hour. -/
def numericalCol (i : Fin 7) (r : Row) : ℚ :=
  match i.val with
  | 0 => (r.tweet_length : ℚ)
  | 1 => (r.hashtag_count : ℚ)
  | 2 => (r.mention_count : ℚ)
  | 3 => (r.word_count : ℚ)
  | 4 => r.polarity
  | 5 => r.subjectivity
  | _ => (r.hour : ℚ)

/-- Sum of products of deviations from the mean for two columns.  The sample
normalisation 1/(n-1) of pandas cov/std cancels in the correlation quotient
and is omitted. -/
def cov (rows : Table) (f g : Row → ℚ) : ℚ :=
  ((rows.map (fun r =>
      (f r - mean (rows.map f)) * (g r - mean (rows.map g))))).sum

/-- Sum of squared deviations from the mean for one column. -/
def colVar (rows : Table) (f : Row → ℚ) : ℚ := cov rows f f

/-- The data of one Pearson correlation entry of line 126: none models the
NaN pandas produces when either column has zero variance in the filtered
subset (including the empty and singleton subsets); otherwise the covariance
together with the two variances. -/
def corrData (rows : Table) (i j : Fin 7) : Option (ℚ × ℚ × ℚ) :=
  if colVar rows (numericalCol i) = 0 ∨ colVar rows (numericalCol j) = 0 then none
  else some (cov rows (numericalCol i) (numericalCol j),
             colVar rows (numericalCol i), colVar rows (numericalCol j))

/-- Line 126: entry (i, j) of filtered_df[numerical_columns].corr(), the
pairwise Pearson correlation, with none for pandas NaN. -/
noncomputable def corr (rows : Table) (i j : Fin 7) : Option ℝ :=
  (corrData rows i j).map
    (fun x => (x.1 : ℝ) / (Real.sqrt (x.2.1 : ℝ) * Real.sqrt (x.2.2 : ℝ)))

/-- pandas Series.value_counts(): one entry per distinct value with its
multiplicity, sorted by descending count. -/
def value_counts (l : List PyVal) : List (PyVal × Nat) :=
  sortLe (fun p q => Nat.ble q.2 p.2) (l.dedup.map (fun v => (v, l.count v)))

/-- Lines 127-128: filtered_df['day_of_week'].value_counts(). -/
def day_of_week_tweet_count (rows : Table) : List (PyVal × Nat) :=
  value_counts (rows.map (fun r => r.day_of_week))

/- ### The network-graph branch (app.py lines 130-196) -/

/-- A Python runtime error surfaced by the callback: a missing dict key or an
unbound name. -/
inductive PyErr where
  | keyError : String → PyErr
  | nameError : String → PyErr
deriving DecidableEq, Repr

/-- The directed graph of line 130, nx.from_pandas_edgelist(filtered_df,
'source', 'target', create_using=nx.DiGraph): its node list, its edge list
(parallel edges collapsed), and the node-attribute store for 'pos' — which
from_pandas_edgelist leaves EMPTY, since nothing assigns positions. -/
structure NGraph where
  nodes : List String
  edges : List (String × String)
  posAttr : List (String × (ℚ × ℚ))
deriving DecidableEq, Repr

/-- Line 130: build the graph from the source/target columns.  No node ever
receives a 'pos' attribute. -/
def from_pandas_edgelist (rows : Table) : NGraph :=
  { nodes := ((rows.map (fun r => r.source)) ++ (rows.map (fun r => r.target))).dedup
    edges := (rows.map (fun r => (r.source, r.target))).dedup
    posAttr := [] }

/-- G.nodes[n]['pos']: KeyError when the attribute was never assigned. -/
def getPos (g : NGraph) (n : String) : Except PyErr (ℚ × ℚ) :=
  match g.posAttr.lookup n with
  | some p => Except.ok p
  | none => Except.error (PyErr.keyError "pos")

/-- Lines 135-139: the edge loop, reading 'pos' off both endpoints of every
edge. -/
def collectEdgePos (g : NGraph) : List (String × String) → Except PyErr (List ((ℚ × ℚ) × (ℚ × ℚ)))
  | [] => Except.ok []
  | e :: es =>
      (getPos g e.1).bind fun p0 =>
      (getPos g e.2).bind fun p1 =>
      (collectEdgePos g es).map fun rest => (p0, p1) :: rest

/-- Lines 150-153: the node loop, reading 'pos' off every node. -/
def collectNodePos (g : NGraph) : List String → Except PyErr (List (ℚ × ℚ))
  | [] => Except.ok []
  | n :: ns =>
      (getPos g n).bind fun p =>
      (collectNodePos g ns).map fun rest => p :: rest

/-- Lines 132-196: rendering the association graph — the edge trace, the node
trace and the figure.  Only the 'pos' reads can fail; the remaining trace and
figure assembly (adjacency counts, layout) always succeeds and is summarised
by ok. -/
def render_association (g : NGraph) : Except PyErr Unit :=
  (collectEdgePos g g.edges).bind fun _ =>
  (collectNodePos g g.nodes).bind fun _ =>
  Except.ok ()

/- ### The callback update_graphs (app.py lines 109-198) -/

/-- The names bound at module level in app.py (imports, the DataFrame, the
app objects and the filter option tables). -/
def module_names : List String :=
  ["pd", "datetime", "re", "TextBlob", "go", "px", "nx", "dash", "dcc", "html",
   "Input", "Output", "df", "app", "server", "months", "days_of_week",
   "weekday_options", "update_graphs"]

/-- Every name bound inside the body of update_graphs: its three parameters
and every assignment or loop target of lines 110-196.  fig1..fig4 are NOT
among them. -/
def update_graphs_locals : List String :=
  ["selected_month", "selected_day_of_week", "selected_weekday_weekend",
   "filtered_df", "daily_tweet_count", "country_sentiment",
   "numerical_columns", "corr", "day_of_week_tweet_count", "G",
   "edge_x", "edge_y", "edge", "x0", "y0", "x1", "y1", "edge_trace",
   "node_x", "node_y", "node", "x", "y", "node_trace",
   "node_adjacencies", "node_text", "adjacencies", "association_graph"]

/-- Evaluating a bare name inside update_graphs: local scope, then module
scope, else NameError — the semantics of the references in the return
statement at line 198. -/
def lookupName (n : String) : Except PyErr Unit :=
  if update_graphs_locals.contains n || module_names.contains n then Except.ok ()
  else Except.error (PyErr.nameError n)

/-- Lines 109-198: the whole callback body.  It filters a copy of the global
table, computes the four aggregates (which never fail), builds the graph and
its traces (lines 130-196, where every 'pos' read can raise KeyError), and
finally evaluates the return tuple of line 198 left to right, beginning with
the unbound names fig1..fig4.  The ok value is unreachable; the result type
records which error each invocation surfaces. -/
def update_graphs (df : Table) (selM : Option Nat) (selD : Option String)
    (selW : Option String) : Except PyErr Unit :=
  let filtered := update_filter df selM selD selW
  let _daily := daily_tweet_count filtered
  let _cs := country_sentiment filtered
  let _corrdata := fun i j => corrData filtered i j
  let _vc := day_of_week_tweet_count filtered
  let g := from_pandas_edgelist filtered
  (render_association g).bind fun _ =>
  (lookupName "fig1").bind fun _ =>
  (lookupName "fig2").bind fun _ =>
  (lookupName "fig3").bind fun _ =>
  (lookupName "fig4").bind fun _ =>
  Except.ok ()

deriving instance DecidableEq for Except

/-- The observable outcome of one callback invocation together with the
module-level DataFrame after the call: the body works on filtered_df =
df.copy() (line 110) and contains no assignment to the global df, so the
global component is the unchanged input table. -/
structure CallOutcome where
  globalDf : Table
  result : Except PyErr Unit
deriving DecidableEq, Repr

/-- One invocation of the callback against the module state: df.copy() is a
fresh equal table, all filtering and aggregation is performed on it, and the
global table is returned unchanged. -/
def update_graphs_call (df : Table) (selM : Option Nat) (selD : Option String)
    (selW : Option String) : CallOutcome :=
  let copied := df
  { globalDf := df
    result := update_graphs copied selM selD selW }

/- ### Concrete rows used as witnesses -/

/-- An enriched row for 2022-06-03 05:00, with the spec's example tweet body
and its derived statistics. -/
def rowA : Row :=
  { date := ⟨2022, 6, 3, 5, 0⟩
    tweet := "Dry fields again #drought #farming cc @noaa"
    country := "US", source := "alice", target := "bob"
    month := 6, year := 2022, day_of_week := PyVal.pint 4
    day_name := "Friday", is_weekend := "Weekday", hour := 5
    tweet_length := 43, hashtag_count := 2, mention_count := 1, word_count := 6
    polarity := 1/2, subjectivity := 1/4 }

/-- An enriched row for 2022-06-04 07:30, differing from rowA in every
numerical column. -/
def rowB : Row :=
  { date := ⟨2022, 6, 4, 7, 30⟩
    tweet := "Rain at last"
    country := "FR", source := "bob", target := "carol"
    month := 6, year := 2022, day_of_week := PyVal.pint 5
    day_name := "Saturday", is_weekend := "Weekend", hour := 7
    tweet_length := 12, hashtag_count := 0, mention_count := 0, word_count := 3
    polarity := -1/4, subjectivity := 3/4 }

/-- rowA shifted to 12:00 of the same calendar day. -/
def rowE : Row := { rowA with date := ⟨2022, 6, 3, 12, 0⟩, hour := 12 }

/-- C1: for every enriched table and every filter triple drawn from the
dropdowns, the filtering step of update_graphs keeps exactly the rows on
which every present criterion tests equal (by Python equality) against its
derived column, absent criteria imposing no constraint, the criteria
composing by AND.  In particular a present day-of-week selection keeps
exactly the rows whose day_of_week value equals the selected day name — under
Python equality no integer dayofweek value does, so that filter keeps no
row. -/
theorem c1_filter_semantics (df : Table) (selM : Option Nat) (selD : Option String)
    (selW : Option String)
    (hM : validMonthSel selM = true) (hD : validDaySel selD = true)
    (hW : validWeekendSel selW = true) :
    update_filter df selM selD selW = df.filter (matchesCriteria selM selD selW) := by
  rw [update_filter, stepMonth_eq_filter selM df hM, stepDayOfWeek_eq_filter selD _ hD,
    stepWeekend_eq_filter selW _ hW, filter_filter_filter]
  rfl

/-- Witness for C1 at a concrete table and the triple (June, Monday,
Weekend). -/
theorem c1_filter_semantics_witness :
    (validMonthSel (some 6) = true ∧ validDaySel (some "Monday") = true ∧
      validWeekendSel (some "Weekend") = true) ∧
    update_filter [rowA, rowB] (some 6) (some "Monday") (some "Weekend") =
      List.filter (matchesCriteria (some 6) (some "Monday") (some "Weekend")) [rowA, rowB] :=
  ⟨⟨by decide, by decide, by decide⟩,
    c1_filter_semantics [rowA, rowB] (some 6) (some "Monday") (some "Weekend")
      (by decide) (by decide) (by decide)⟩

/-- C8: the month filter and the day-of-week filter of update_graphs commute:
filtering by month M then by day-of-week D gives the same table as the
opposite order. -/
theorem c8_filters_commute (t : Table) (M : Nat) (D : String) :
    stepDayOfWeek (some D) (stepMonth (some M) t) =
      stepMonth (some M) (stepDayOfWeek (some D) t) := by
  by_cases hm : (M == 0) = true
  · simp [stepMonth, stepDayOfWeek, hm]
  · by_cases hd : (D == "") = true
    · simp [stepMonth, stepDayOfWeek, hm, hd]
    · simp only [stepMonth, stepDayOfWeek, hm, hd, if_false, Bool.false_eq_true]
      rw [List.filter_filter, List.filter_filter]
      exact List.filter_congr (fun a _ => Bool.and_comm _ _)

/-- C7 counterexample: the spec's example body has seven whitespace-delimited
tokens (Dry, fields, again, #drought, #farming, cc, @noaa), not six, so the
claimed triple (2, 1, 6) is wrong in its word count. -/
theorem c7_counterexample :
    word_count "Dry fields again #drought #farming cc @noaa" ≠ 6 := by decide

/-- C7 amended: hashtag_count and mention_count equal the number of
non-overlapping matches of #·word-run and @·word-run (equivalently, of
positions where the marker is followed by a word character), and on the body
"Dry fields again #drought #farming cc @noaa" the derived fields are
hashtag_count = 2, mention_count = 1 and word_count = 7. -/
theorem c7_text_statistics :
    (∀ s : String, hashtag_count s = countStarts '#' s.data ∧
        mention_count s = countStarts '@' s.data) ∧
    hashtag_count "Dry fields again #drought #farming cc @noaa" = 2 ∧
    mention_count "Dry fields again #drought #farming cc @noaa" = 1 ∧
    word_count "Dry fields again #drought #farming cc @noaa" = 7 := by
  refine ⟨?_, by decide, by decide, by decide⟩
  intro s
  exact ⟨countFindall_eq_countStarts '#' (by decide) s.data,
         countFindall_eq_countStarts '@' (by decide) s.data⟩

/-- C4 counterexample: a table of two rows at 05:00 and 12:00 of the same
calendar day.  The code's daily aggregate groups by the full `date`
timestamp and produces two groups, although the table has one single
calendar date — so the aggregate does not group by calendar date. -/
theorem c4_counterexample :
    (daily_tweet_count [rowA, rowE]).length = 2 ∧
    ((([rowA, rowE] : Table).map
        (fun r => (r.date.year, r.date.month, r.date.day))).dedup).length = 1 := by
  decide

/-- C4 amended: the daily tweet count groups rows by the exact value of the
`date` column (a full timestamp, so times on the same calendar day form
separate groups), counts the rows of each group, and returns one entry per
distinct timestamp ordered chronologically ascending. -/
theorem c4_daily_count (rows : Table) :
    (daily_tweet_count rows).Pairwise (fun p q => tsKey p.1 ≤ tsKey q.1) ∧
    (∀ p ∈ daily_tweet_count rows,
        p.2 = rows.countP (fun r => r.date == p.1)) ∧
    (∀ d : Timestamp,
        (∃ c, (d, c) ∈ daily_tweet_count rows) ↔ d ∈ rows.map (fun r => r.date)) := by
  refine ⟨?_, ?_, ?_⟩
  · have hs : ((sortLe tsLeB ((rows.map (fun r => r.date)).dedup))).Pairwise
        (fun x y => tsLeB x y) :=
      sorted_sortLe tsLeB
        (fun a b => by
          have := Nat.le_total (tsKey a) (tsKey b)
          rcases this with h | h <;> simp [tsLeB, h])
        (fun a b c h1 h2 => by
          simp only [tsLeB, decide_eq_true_eq] at h1 h2 ⊢
          omega)
        ((rows.map (fun r => r.date)).dedup)
    unfold daily_tweet_count
    rw [List.pairwise_map]
    exact hs.imp (fun h => by simpa [tsLeB] using h)
  · intro p hp
    obtain ⟨d, -, rfl⟩ := List.mem_map.1 hp
    rfl
  · intro d
    constructor
    · rintro ⟨c, hc⟩
      obtain ⟨d', hd', he⟩ := List.mem_map.1 hc
      obtain rfl : d' = d := congrArg Prod.fst he
      exact List.mem_dedup.1 ((mem_sortLe _ _ _).1 hd')
    · intro hd
      refine ⟨rows.countP (fun r => r.date == d), List.mem_map.2 ⟨d, ?_, rfl⟩⟩
      exact (mem_sortLe _ _ _).2 (List.mem_dedup.2 hd)

/-- Witness for C4's amended grouping statement at the two-row table: the
05:00 group is present and its count is the number of rows carrying exactly
that timestamp. -/
theorem c4_daily_count_witness :
    ((⟨2022, 6, 3, 5, 0⟩, 1) : Timestamp × Nat) ∈ daily_tweet_count [rowA, rowE] ∧
    (1 : Nat) = ([rowA, rowE] : Table).countP
      (fun r => r.date == (⟨2022, 6, 3, 5, 0⟩ : Timestamp)) :=
  ⟨by decide, (c4_daily_count [rowA, rowE]).2.1 (⟨2022, 6, 3, 5, 0⟩, 1) (by decide)⟩

/-- C9: the day-of-week aggregate of lines 127-128 is value_counts on the
`day_of_week` column: one entry per distinct column value with the number of
rows carrying it, ordered by descending count (the generic value-counts
order). -/
theorem c9_day_of_week_counts (rows : Table) :
    (day_of_week_tweet_count rows).Pairwise (fun p q => q.2 ≤ p.2) ∧
    (∀ p ∈ day_of_week_tweet_count rows,
        p.2 = (rows.map (fun r => r.day_of_week)).count p.1) ∧
    (∀ v : PyVal,
        (∃ n, (v, n) ∈ day_of_week_tweet_count rows) ↔
          v ∈ rows.map (fun r => r.day_of_week)) := by
  refine ⟨?_, ?_, ?_⟩
  · have hs := sorted_sortLe (fun p q : PyVal × Nat => Nat.ble q.2 p.2)
      (fun a b => by
        have := Nat.le_total b.2 a.2
        rcases this with h | h <;> simp [Nat.ble_eq, h])
      (fun a b c h1 h2 => by
        simp only [Nat.ble_eq] at h1 h2 ⊢
        omega)
      (((rows.map (fun r => r.day_of_week)).dedup).map
        (fun v => (v, (rows.map (fun r => r.day_of_week)).count v)))
    exact hs.imp (fun h => by simpa [Nat.ble_eq] using h)
  · intro p hp
    obtain ⟨v, -, rfl⟩ :=
      List.mem_map.1 ((mem_sortLe _ _ _).1 hp)
    rfl
  · intro v
    constructor
    · rintro ⟨n, hn⟩
      obtain ⟨v', hv', he⟩ := List.mem_map.1 ((mem_sortLe _ _ _).1 hn)
      obtain rfl : v' = v := congrArg Prod.fst he
      exact List.mem_dedup.1 hv'
    · intro hv
      refine ⟨(rows.map (fun r => r.day_of_week)).count v, (mem_sortLe _ _ _).2 ?_⟩
      exact List.mem_map.2 ⟨v, List.mem_dedup.2 hv, rfl⟩

/-- Witness for C9 at a three-row table: Friday (dayofweek 4) appears twice
and its entry carries exactly that count. -/
theorem c9_day_of_week_counts_witness :
    ((PyVal.pint 4, 2) : PyVal × Nat) ∈ day_of_week_tweet_count [rowA, rowB, rowE] ∧
    (2 : Nat) = (([rowA, rowB, rowE] : Table).map (fun r => r.day_of_week)).count
      (PyVal.pint 4) :=
  ⟨by decide,
    (c9_day_of_week_counts [rowA, rowB, rowE]).2.1 (PyVal.pint 4, 2) (by decide)⟩

/-- C5: when the filter criteria match zero rows, the four aggregates are
empty lists — and every correlation entry is the NaN marker — rather than
errors: in this embedding all four are total functions, and on the empty
subset they evaluate to empty or all-none outputs. -/
theorem c5_empty_subset (df : Table) (selM : Option Nat) (selD : Option String)
    (selW : Option String) (h : update_filter df selM selD selW = []) :
    daily_tweet_count (update_filter df selM selD selW) = [] ∧
    country_sentiment (update_filter df selM selD selW) = [] ∧
    (∀ i j : Fin 7, corr (update_filter df selM selD selW) i j = none) ∧
    day_of_week_tweet_count (update_filter df selM selD selW) = [] := by
  rw [h]
  refine ⟨rfl, rfl, ?_, rfl⟩
  intro i j
  have hv : colVar ([] : Table) (numericalCol i) = 0 := rfl
  simp [corr, corrData, hv]

/-- Witness for C5: the month criterion 2 matches no row of the concrete
table, and the aggregates of the empty subset are empty or all-none. -/
theorem c5_empty_subset_witness :
    update_filter [rowA, rowB] (some 2) none none = [] ∧
    (daily_tweet_count (update_filter [rowA, rowB] (some 2) none none) = [] ∧
     country_sentiment (update_filter [rowA, rowB] (some 2) none none) = [] ∧
     (∀ i j : Fin 7, corr (update_filter [rowA, rowB] (some 2) none none) i j = none) ∧
     day_of_week_tweet_count (update_filter [rowA, rowB] (some 2) none none) = []) :=
  ⟨by decide, c5_empty_subset [rowA, rowB] (some 2) none none (by decide)⟩

theorem cov_comm (rows : Table) (f g : Row → ℚ) : cov rows f g = cov rows g f := by
  unfold cov
  congr 1
  apply List.map_congr_left
  intro r _
  ring

theorem colVar_nonneg (rows : Table) (f : Row → ℚ) : 0 ≤ colVar rows f := by
  unfold colVar cov
  apply List.sum_nonneg
  intro x hx
  obtain ⟨r, -, rfl⟩ := List.mem_map.1 hx
  exact mul_self_nonneg _

/-- C6: on any subset in which all seven numerical columns have non-zero
variance, the Pearson correlation matrix is symmetric and every diagonal
entry is 1. -/
theorem c6_corr_matrix (rows : Table)
    (h : ∀ i : Fin 7, colVar rows (numericalCol i) ≠ 0) :
    (∀ i j : Fin 7, corr rows i j = corr rows j i) ∧
    (∀ i : Fin 7, corr rows i i = some 1) := by
  constructor
  · intro i j
    unfold corr corrData
    rw [if_neg (by push_neg; exact ⟨h i, h j⟩), if_neg (by push_neg; exact ⟨h j, h i⟩)]
    simp only [Option.map_some']
    rw [cov_comm rows (numericalCol i) (numericalCol j),
      mul_comm (Real.sqrt ((colVar rows (numericalCol i) : ℚ) : ℝ))
        (Real.sqrt ((colVar rows (numericalCol j) : ℚ) : ℝ))]
  · intro i
    unfold corr corrData
    rw [if_neg (by simp [h i])]
    simp only [Option.map_some']
    have hv0 : (0 : ℝ) ≤ ((colVar rows (numericalCol i) : ℚ) : ℝ) := by
      exact_mod_cast colVar_nonneg rows (numericalCol i)
    have hcov : cov rows (numericalCol i) (numericalCol i) = colVar rows (numericalCol i) := rfl
    rw [hcov, Real.mul_self_sqrt hv0, div_self (by exact_mod_cast h i)]

/-- Witness for C6 at a two-row table whose rows differ in every numerical
column, so every column variance is non-zero. -/
theorem c6_corr_matrix_witness :
    (∀ i : Fin 7, colVar [rowA, rowB] (numericalCol i) ≠ 0) ∧
    (∀ i : Fin 7, corr [rowA, rowB] i i = some 1) := by
  have h : ∀ i : Fin 7, colVar [rowA, rowB] (numericalCol i) ≠ 0 := by
    intro i
    fin_cases i <;> norm_num [colVar, cov, mean, numericalCol, rowA, rowB]
  exact ⟨h, (c6_corr_matrix [rowA, rowB] h).2⟩

theorem render_error_of_edges_ne_nil (g : NGraph) (hpos : g.posAttr = [])
    (h : g.edges ≠ []) :
    render_association g = Except.error (PyErr.keyError "pos") := by
  obtain ⟨e, es, he⟩ := List.exists_cons_of_ne_nil h
  unfold render_association
  rw [he]
  rcases e with ⟨a, b⟩
  simp [collectEdgePos, getPos, hpos, Except.bind]

theorem edges_ne_nil_of_rows (r : Row) (rs : Table) :
    (from_pandas_edgelist (r :: rs)).edges ≠ [] := by
  simp [from_pandas_edgelist]

theorem rows_ne_nil_of_nodes (rows : Table)
    (h : (from_pandas_edgelist rows).nodes ≠ []) : rows ≠ [] := by
  intro hr
  subst hr
  exact h rfl

/-- C2: whenever the source/target columns of the filtered subset produce a
non-empty graph, the network-graph construction fails at render time with the
KeyError raised by the first read of the never-assigned 'pos' node
attribute. -/
theorem c2_network_render_fails (rows : Table)
    (h : (from_pandas_edgelist rows).nodes ≠ []) :
    render_association (from_pandas_edgelist rows) =
      Except.error (PyErr.keyError "pos") := by
  obtain ⟨r, rs, rfl⟩ := List.exists_cons_of_ne_nil (rows_ne_nil_of_nodes rows h)
  exact render_error_of_edges_ne_nil _ rfl (edges_ne_nil_of_rows r rs)

/-- Witness for C2 at the one-row table, whose graph has the two nodes alice
and bob. -/
theorem c2_network_render_fails_witness :
    (from_pandas_edgelist [rowA]).nodes ≠ [] ∧
    render_association (from_pandas_edgelist [rowA]) =
      Except.error (PyErr.keyError "pos") :=
  ⟨by decide, c2_network_render_fails [rowA] (by decide)⟩

/-- C3 counterexample: with one matching row the invocation fails with the
KeyError of the 'pos' read at line 136 — which precedes the return statement
— and not with a NameError, refuting "every invocation raises NameError". -/
theorem c3_counterexample :
    update_graphs [rowA] none none none = Except.error (PyErr.keyError "pos") ∧
    ∀ n : String, update_graphs [rowA] none none none ≠
      Except.error (PyErr.nameError n) := by
  have h : update_graphs [rowA] none none none =
      Except.error (PyErr.keyError "pos") := by decide
  refine ⟨h, ?_⟩
  intro n hn
  rw [h] at hn
  exact PyErr.noConfusion (Except.error.inj hn)

/-- C3 amended: every invocation of update_graphs raises — but which error
depends on the filtered subset.  When it is empty the body reaches the return
statement of line 198 and the unbound name fig1 raises NameError; when it is
non-empty the 'pos' read of the network branch raises KeyError first.  In no
case are the four figures returned. -/
theorem c3_always_raises (df : Table) (selM : Option Nat) (selD : Option String)
    (selW : Option String) :
    update_graphs df selM selD selW =
      Except.error
        (if update_filter df selM selD selW = [] then PyErr.nameError "fig1"
         else PyErr.keyError "pos") := by
  by_cases h : update_filter df selM selD selW = []
  · rw [if_pos h]
    unfold update_graphs
    rw [h]
    rfl
  · rw [if_neg h]
    obtain ⟨r, rs, hf⟩ := List.exists_cons_of_ne_nil h
    have h2 : render_association (from_pandas_edgelist (r :: rs)) =
        Except.error (PyErr.keyError "pos") :=
      render_error_of_edges_ne_nil _ rfl (edges_ne_nil_of_rows r rs)
    simp only [update_graphs, hf]
    rw [h2]
    rfl

/-- C10: one callback invocation leaves the module-level enriched table
unchanged — the body works on the copy made at line 110 and contains no
assignment to the global — and its result is exactly the computation on that
copy. -/
theorem c10_global_read_only (df : Table) (selM : Option Nat) (selD : Option String)
    (selW : Option String) :
    (update_graphs_call df selM selD selW).globalDf = df ∧
    (update_graphs_call df selM selD selW).result = update_graphs df selM selD selW :=
  ⟨rfl, rfl⟩
